import Mathlib

/-!
Shallow embedding of `src/scripts/update.js`, a data-collection script that
fetches 90-day order data from a Shopify-style order API and session data
from a GA4-style analytics API, merges them and writes one JSON record.

Modelling conventions:
* JS strings are `List Char` (one entry per code point).
* JS numbers are `Option ℚ`: `none` is `NaN`, `some q` an exact value.
  The script only produces numbers by parsing decimal literals and by
  rational arithmetic on them, so exact rationals model every value the
  claims are about.
* The network is a value passed in: the order API is a list of responses in
  request order, the analytics API a single report response.
* Fallible JS control flow (throw / rejected promise) is `Except JsError`.
-/

/-- JS strings, modelled as lists of characters. -/
abbrev Str := List Char

/-- A JS number that may be `NaN`: `none` is `NaN`, `some q` the exact value. -/
abbrev JsNum := Option ℚ

/-- JS `+` on numbers: `NaN` absorbs. -/
def jsAdd : JsNum → JsNum → JsNum
  | some a, some b => some (a + b)
  | _, _ => none

/-- JS `*` on numbers: `NaN` absorbs. -/
def jsMul : JsNum → JsNum → JsNum
  | some a, some b => some (a * b)
  | _, _ => none

/-- JS `Math.round`: nearest integer, ties toward positive infinity; `NaN ↦ NaN`. -/
def jsRound : JsNum → JsNum
  | none => none
  | some q => some ((⌊q + 1/2⌋ : ℤ) : ℚ)

/-- JS `parseFloat(x.toFixed(2))`: round to 2 decimal places (ties toward the
larger value, per `Number.prototype.toFixed`), reread as a number; `NaN ↦ NaN`
since `parseFloat("NaN")` is `NaN`. -/
def fix2 : JsNum → JsNum
  | none => none
  | some q => some (((⌊q * 100 + 1/2⌋ : ℤ) : ℚ) / 100)

/-- JS `String.prototype.split` with a one-character separator: splits at every
occurrence, keeping empty pieces; the result is never the empty list. -/
def splitOnChar (sep : Char) : Str → List Str
  | [] => [[]]
  | c :: cs =>
    if c = sep then [] :: splitOnChar sep cs
    else
      match splitOnChar sep cs with
      | [] => [[c]]
      | t :: ts => (c :: t) :: ts

/-- JS `String.prototype.trim` (the header strings involved only use ASCII
whitespace). -/
def trimStr (s : Str) : Str :=
  ((s.dropWhile Char.isWhitespace).reverse.dropWhile Char.isWhitespace).reverse

/-- Value of a hexadecimal digit. -/
def hexVal (c : Char) : Option Nat :=
  if '0' ≤ c ∧ c ≤ '9' then some (c.toNat - '0'.toNat)
  else if 'a' ≤ c ∧ c ≤ 'f' then some (c.toNat - 'a'.toNat + 10)
  else if 'A' ≤ c ∧ c ≤ 'F' then some (c.toNat - 'A'.toNat + 10)
  else none

/-- JS `decodeURIComponent`, modelled for single-byte escapes: each `%XX` hex
escape decodes to the character with code `XX`, everything else passes
through. (Multi-byte UTF-8 escape sequences and the `URIError` thrown on
malformed input are outside this model; no claim exercises them.) -/
def percentDecode : Str → Str
  | '%' :: h₁ :: h₂ :: rest =>
    match hexVal h₁, hexVal h₂ with
    | some a, some b => Char.ofNat (16 * a + b) :: percentDecode rest
    | _, _ => '%' :: percentDecode (h₁ :: h₂ :: rest)
  | c :: rest => c :: percentDecode rest
  | [] => []

/-- The literal searched for by the regex `/page_info=([^&>]+)/`. -/
def pageInfoNeedle : Str := "page_info=".toList

/-- The regex match `urlPart.match(/page_info=([^&>]+)/)`, returning capture group 1: the
first position where the literal `page_info=` is followed by at least one
character other than `&` and `>` wins, and the capture is the maximal run of
such characters (the regex scan moves on past a position where the group
would be empty). -/
def findPageInfo : Str → Option Str
  | [] => none
  | c :: cs =>
    if pageInfoNeedle.isPrefixOf (c :: cs) then
      let tok := ((c :: cs).drop pageInfoNeedle.length).takeWhile
        fun d => !(d == '&') && !(d == '>')
      if tok.isEmpty then findPageInfo cs else some tok
    else findPageInfo cs

/-- The relation string compared against: `rel="next"`. -/
def relNext : Str := "rel=\"next\"".toList

/-- The `for (const part of parts)` loop of `getNextPage`, one comma-separated
segment at a time: each segment is split on `;` into a URL part and a relation
part (both trimmed); on the first segment whose relation part is exactly
`rel="next"` the loop returns — the decoded `page_info` capture if present,
`null` otherwise. -/
def nextPageLoop : List Str → Option Str
  | [] => none
  | part :: rest =>
    let pieces := (splitOnChar ';' part).map trimStr
    let urlPart := pieces.headD []
    let relPart := pieces[1]?
    if relPart = some relNext then
      match findPageInfo urlPart with
      | some tok => some (percentDecode tok)
      | none => none
    else nextPageLoop rest

/-- Function `getNextPage` (src/scripts/update.js lines 31–42). The argument is the
`link` response header, `none` when absent; JS also treats an empty header
string as falsy and returns `null` for it. -/
def getNextPage : Option Str → Option Str
  | none => none
  | some h =>
    if h.isEmpty then none
    else nextPageLoop ((splitOnChar ',' h).map trimStr)

/-- Value of a decimal digit. -/
def digitVal (c : Char) : Option Nat :=
  if c = '0' then some 0 else if c = '1' then some 1 else if c = '2' then some 2
  else if c = '3' then some 3 else if c = '4' then some 4 else if c = '5' then some 5
  else if c = '6' then some 6 else if c = '7' then some 7 else if c = '8' then some 8
  else if c = '9' then some 9 else none

/-- Reads the maximal leading run of decimal digits, returning their values
and the rest of the string. -/
def readDigits : Str → List Nat × Str
  | [] => ([], [])
  | c :: cs =>
    match digitVal c with
    | some d =>
      match readDigits cs with
      | (ds, rest) => (d :: ds, rest)
    | none => ([], c :: cs)

/-- The natural number denoted by a digit run. -/
def digitsVal (ds : List Nat) : ℕ :=
  ds.foldl (fun a d => 10 * a + d) 0

/-- JS `parseFloat`, modelled for decimal literals: skip leading whitespace,
read an optional sign, an integer digit run, an optional `.`-separated
fractional run and an optional exponent; the longest valid numeric front of
the string counts, and the result is `NaN` (`none`) when no digit is read.
(`Infinity` literals have no ℚ value and are outside the model; the parsed
inputs here are plain decimal metric and price strings.) -/
def parseFloatJs (s : Str) : JsNum :=
  let s₁ := s.dropWhile Char.isWhitespace
  let sign : ℚ := if s₁.headD ' ' = '-' then -1 else 1
  let s₂ := if s₁.headD ' ' = '-' ∨ s₁.headD ' ' = '+' then s₁.tail else s₁
  match readDigits s₂ with
  | (ip, s₃) =>
    let hasDot := s₃.headD ' ' = '.'
    match readDigits (if hasDot then s₃.tail else s₃) with
    | (fp, s₄) =>
      let s₅ := if hasDot then s₄ else s₃
      if ip.isEmpty ∧ fp.isEmpty then none
      else
        let mant : ℚ := sign * ((digitsVal ip : ℚ) +
          (digitsVal (if hasDot then fp else []) : ℚ) / (10 ^ (if hasDot then fp else []).length))
        if s₅.headD ' ' = 'e' ∨ s₅.headD ' ' = 'E' then
          let s₆ := s₅.tail
          let esign : ℤ := if s₆.headD ' ' = '-' then -1 else 1
          let s₇ := if s₆.headD ' ' = '-' ∨ s₆.headD ' ' = '+' then s₆.tail else s₆
          match readDigits s₇ with
          | (ed, _) =>
            if ed.isEmpty then some mant
            else some (mant * (10 : ℚ) ^ (esign * (digitsVal ed : ℤ)))
        else some mant

/-- The price parse `parseFloat(order.total_price || 0)`: an absent or empty (falsy)
`total_price` gives the number `0`; otherwise the string is parsed, which
yields `NaN` for a string with no leading number. -/
def parsePrice : Option Str → JsNum
  | none => some 0
  | some s => if s.isEmpty then some 0 else parseFloatJs s

/-- The process environment: each variable is `none` when unset. JS treats
both unset variables and empty strings as falsy. -/
structure Env where
  SHOPIFY_STORE : Option Str
  SHOPIFY_ADMIN_TOKEN : Option Str
  SEGMENT_SHOPIFY_QUERY : Option Str
  GA4_PROPERTY_ID : Option Str
  GA4_CLIENT_EMAIL : Option Str
  GA4_PRIVATE_KEY : Option Str
  SEGMENT_GA_FILTER : Option Str

/-- JS truthiness of an optional string: unset and `""` are falsy. -/
def truthy : Option Str → Bool
  | none => false
  | some s => !s.isEmpty

/-- One order record of a page body: its `total_price` JSON field,
`none` when absent. -/
structure ShopifyOrder where
  total_price : Option Str
deriving DecidableEq

/-- One order-API response, in request order. `ok`/`status`/`body` are the
HTTP fields; `ordersField` is the `orders` field of the parsed JSON body
(`none` when the body has no such array); `link` is the `link` response
header. -/
structure ShopifyResponse where
  ok : Bool
  status : Nat
  body : Str
  ordersField : Option (List ShopifyOrder)
  link : Option Str
deriving DecidableEq

/-- The accumulated result of `fetchShopify`. -/
structure OrderAggregate where
  orders : Nat
  sales : JsNum
deriving DecidableEq

/-- The errors the script can throw. Constructors carry exactly the data the
corresponding JS error message interpolates. -/
inductive JsError where
  /-- `Missing SHOPIFY_STORE or SHOPIFY_ADMIN_TOKEN environment variables` -/
  | missingShopifyEnv
  /-- `Shopify API error ${res.status}: ${body}` -/
  | shopifyApi (status : Nat) (body : Str)
  /-- The `for (const order of data.orders)` loop throws a `TypeError` when
  the body has no `orders` array. -/
  | ordersNotIterable
  /-- A request was issued past the provided response sequence: a network
  failure outside the modelled exchanges. -/
  | noResponse
  /-- `Missing GA4 service account credentials.` -/
  | missingGA4Creds
  /-- `row.metricValues[i].value` throws a `TypeError` when the first row has
  fewer than two metric values. -/
  | metricValuesMissing
deriving DecidableEq

/-- The `do … while (pageInfo)` pagination loop of `fetchShopify` (lines
64–79): one response is consumed per request; a non-success response throws
with its status and body; each page's orders bump the count and add their
parsed price to the sum; the loop continues while `getNextPage` finds a
cursor in the `link` header. -/
def shopifyLoop : List ShopifyResponse → Nat → JsNum → Except JsError OrderAggregate
  | [], _, _ => .error .noResponse
  | r :: rest, orders, sales =>
    if !r.ok then .error (.shopifyApi r.status r.body)
    else
      match r.ordersField with
      | none => .error .ordersNotIterable
      | some os =>
        match os.foldl (fun (a : Nat × JsNum) o =>
            (a.1 + 1, jsAdd a.2 (parsePrice o.total_price))) (orders, sales) with
        | (orders₁, sales₁) =>
          match getNextPage r.link with
          | some _ => shopifyLoop rest orders₁ sales₁
          | none => .ok ⟨orders₁, sales₁⟩

/-- Function `fetchShopify` (lines 44–81). The network is modelled by the list of
responses the order API would return, in request order; the request URL
(dates, query filter, cursor) determines those responses and is not itself
represented, so the fail-fast credential check is the only part of the
function that looks at the environment. -/
def fetchShopify (env : Env) (pages : List ShopifyResponse) :
    Except JsError OrderAggregate :=
  if !truthy env.SHOPIFY_STORE || !truthy env.SHOPIFY_ADMIN_TOKEN then
    .error .missingShopifyEnv
  else shopifyLoop pages 0 (some 0)

/-- One row of a report response: the `value` of each entry of its
`metricValues` array. -/
structure GA4Row where
  metricValues : List Str
deriving DecidableEq

/-- A report response: its `rows` array, `none` when the field is absent. -/
structure GA4Response where
  rows : Option (List GA4Row)
deriving DecidableEq

/-- The result of `fetchGA4`. -/
structure AnalyticsSummary where
  sessions : JsNum
  conversionRate : JsNum
deriving DecidableEq

/-- The report request built by `fetchGA4`, over an abstract type `α` of
parsed dimension-filter values. The fixed date range and metric names are
constants in the source and omitted. -/
structure GA4Request (α : Type) where
  property : Str
  dimensionFilter : Option α
deriving DecidableEq

/-- What a `fetchGA4` run produced: the warnings written to the console, the
report request that was issued, and the returned summary. -/
structure GA4Fetch (α : Type) where
  warnings : List Str
  request : GA4Request α
  summary : AnalyticsSummary
deriving DecidableEq

/-- The substitution `privateKey.replace(/\\n/g, '\n')`: every backslash-n pair becomes a
newline. -/
def unescapeNewlines : Str → Str
  | '\\' :: 'n' :: rest => '\n' :: unescapeNewlines rest
  | c :: rest => c :: unescapeNewlines rest
  | [] => []

/-- The console warning printed for an unparsable filter. -/
def invalidFilterWarning : Str := "Invalid SEGMENT_GA_FILTER JSON, ignoring".toList

/-- Function `fetchGA4` (lines 83–113). `jsonParse` models the `JSON.parse` builtin
applied to the optional filter string (`none` models a throw), and `resp`
the `runReport` response. Missing credentials throw before any request; a
present, non-empty filter that fails to parse adds a console warning and
leaves `dimensionFilter` unset; the summary comes from the first row's first
two metric values, or zero-defaults when there is no first row. -/
def fetchGA4 {α : Type} (jsonParse : Str → Option α) (env : Env)
    (resp : GA4Response) : Except JsError (GA4Fetch α) :=
  let privateKey := env.GA4_PRIVATE_KEY.map unescapeNewlines
  if !truthy env.GA4_PROPERTY_ID || !truthy env.GA4_CLIENT_EMAIL || !truthy privateKey then
    .error .missingGA4Creds
  else
    let baseReq : GA4Request α :=
      { property := "properties/".toList ++ env.GA4_PROPERTY_ID.getD []
        dimensionFilter := none }
    let withFilter : List Str × GA4Request α :=
      match env.SEGMENT_GA_FILTER with
      | some f =>
        if f.isEmpty then ([], baseReq)
        else
          match jsonParse f with
          | some v => ([], { baseReq with dimensionFilter := some v })
          | none => ([invalidFilterWarning], baseReq)
      | none => ([], baseReq)
    match resp.rows.bind (fun rs => rs[0]?) with
    | some row =>
      match row.metricValues[0]?, row.metricValues[1]? with
      | some v₀, some v₁ =>
        .ok ⟨withFilter.1, withFilter.2, ⟨parseFloatJs v₀, parseFloatJs v₁⟩⟩
      | _, _ => .error .metricValuesMissing
    | none => .ok ⟨withFilter.1, withFilter.2, ⟨some 0, some 0⟩⟩

/-- The record written to `public/data/segment.json`. The four delta fields
and the two series fields hold `null` in this version; their option types
record that the slot exists in the JSON shape. -/
structure OutputRecord where
  sessions : JsNum
  orders : Nat
  sales : JsNum
  conversionRate : JsNum
  sessionsDelta : Option JsNum
  ordersDelta : Option JsNum
  salesDelta : Option JsNum
  conversionRateDelta : Option JsNum
  labels : Option (List Str)
  series : Option (List JsNum)
deriving DecidableEq

/-- The output composition of `main` (lines 118–130). -/
def composeOutput (shopify : OrderAggregate) (ga : AnalyticsSummary) : OutputRecord :=
  { sessions := jsRound ga.sessions
    orders := shopify.orders
    sales := fix2 shopify.sales
    conversionRate := fix2 (jsMul ga.conversionRate (some 100))
    sessionsDelta := none
    ordersDelta := none
    salesDelta := none
    conversionRateDelta := none
    labels := none
    series := none }

/-- Function `main` plus the top-level `.catch` (lines 115–140). `.ok r` models a run
that writes `r` to the output file and exits 0; `.error e` models the catch
handler printing the error and exiting with status 1, the file unwritten.
`Promise.all` rejects as soon as either fetch rejects, so no record is
composed or written unless both fetches succeed. -/
def mainRun {α : Type} (jsonParse : Str → Option α) (env : Env)
    (pages : List ShopifyResponse) (resp : GA4Response) : Except JsError OutputRecord :=
  match fetchShopify env pages, fetchGA4 jsonParse env resp with
  | .ok s, .ok g => .ok (composeOutput s g.summary)
  | .error e, _ => .error e
  | .ok _, .error e => .error e

/-! Derived notions the claims quantify over. -/

/-- Whether a comma segment's relation part is exactly `rel="next"`. -/
def isNextSeg (part : Str) : Bool :=
  decide (((splitOnChar ';' part).map trimStr)[1]? = some relNext)

/-- The URL part of a comma segment (`split(';')` is never empty). -/
def urlPartOf (part : Str) : Str :=
  ((splitOnChar ';' part).map trimStr).headD []

/-- A response that lets the pagination loop continue: successful, carrying
an `orders` array, and naming a next-page cursor. -/
def okPage (r : ShopifyResponse) : Bool :=
  r.ok && r.ordersField.isSome && (getNextPage r.link).isSome

/-- A response sequence as produced by a fully successful paginated fetch:
nonempty, every response successful with an `orders` array, every response
but the last carrying a next cursor, the last carrying none. -/
def goodChain : List ShopifyResponse → Bool
  | [] => false
  | [r] => r.ok && r.ordersField.isSome && (getNextPage r.link).isNone
  | r :: r₂ :: rest => okPage r && goodChain (r₂ :: rest)

/-- All order records across a response sequence, in order. -/
def pageOrders (pages : List ShopifyResponse) : List ShopifyOrder :=
  (pages.map (fun p => p.ordersField.getD [])).flatten

/-- The sales total the accumulation loop produces over a list of orders:
the exact sum of the parsed prices (a missing or empty price counting 0)
when every price parses, `NaN` otherwise. -/
def salesSpec (os : List ShopifyOrder) : JsNum :=
  if os.all (fun o => (parsePrice o.total_price).isSome)
  then some ((os.map (fun o => (parsePrice o.total_price).getD 0)).sum)
  else none

/-- A report response whose first row, if any, has the two metric values the
script reads. -/
def respWellFormed (resp : GA4Response) : Bool :=
  match resp.rows.bind (fun rs => rs[0]?) with
  | some row => (row.metricValues[0]?).isSome && (row.metricValues[1]?).isSome
  | none => true

/-- An environment with every credential present, used for concrete runs. -/
def envOK : Env :=
  { SHOPIFY_STORE := some "example.myshopify.com".toList
    SHOPIFY_ADMIN_TOKEN := some "token".toList
    SEGMENT_SHOPIFY_QUERY := none
    GA4_PROPERTY_ID := some "123".toList
    GA4_CLIENT_EMAIL := some "svc@example.com".toList
    GA4_PRIVATE_KEY := some "key".toList
    SEGMENT_GA_FILTER := none }

/-- A link header naming a next-page cursor, for concrete runs. -/
def nextLink : Str := "<https://x/orders.json?page_info=CURSOR2>; rel=\"next\"".toList

/-- First page of the spec's two-page example: two orders summing 19.98 and
a next cursor. -/
def page₁ : ShopifyResponse :=
  { ok := true, status := 200, body := []
    ordersField := some [⟨some "9.99".toList⟩, ⟨some "9.99".toList⟩]
    link := some nextLink }

/-- Second page of the spec's two-page example: one order of 5.00, no next
cursor. -/
def page₂ : ShopifyResponse :=
  { ok := true, status := 200, body := []
    ordersField := some [⟨some "5.00".toList⟩]
    link := none }

/-- A single successful page holding a non-numeric price next to a 5.00
order. -/
def pageBadPrice : ShopifyResponse :=
  { ok := true, status := 200, body := []
    ordersField := some [⟨some "abc".toList⟩, ⟨some "5.00".toList⟩]
    link := none }

/-- A failing first page. -/
def pageDown : ShopifyResponse :=
  { ok := false, status := 429, body := "slow down".toList
    ordersField := none, link := none }

/-- A successful page whose body carries no `orders` array. -/
def pageNoOrders : ShopifyResponse :=
  { ok := true, status := 200, body := []
    ordersField := none, link := none }

/-- The environment `envOK` with the store identifier unset. -/
def envNoStore : Env := { envOK with SHOPIFY_STORE := none }

/-- The environment `envOK` with the analytics property ID unset. -/
def envNoProperty : Env := { envOK with GA4_PROPERTY_ID := none }

/-- The environment `envOK` with a dimension-filter string set. -/
def envWithFilter : Env := { envOK with SEGMENT_GA_FILTER := some "not json".toList }

/-- A report response with one row `[sessions=1000, conversionRate=0.025]`. -/
def gaResp : GA4Response := ⟨some [⟨["1000".toList, "0.025".toList]⟩]⟩

/-- A report response with zero rows. -/
def gaRespEmpty : GA4Response := ⟨some []⟩

/-- A `JSON.parse` model under which every string fails to parse. -/
def noParse : Str → Option Unit := fun _ => none

/-- A header whose first `rel="next"` segment has no `page_info` parameter
while a later `rel="next"` segment has one. -/
def headerTwoNext : Str :=
  "<https://x/a>; rel=\"next\", <https://x/b?page_info=XYZ>; rel=\"next\"".toList

/-! Helper lemmas. -/

theorem jsAdd_assoc (a b c : JsNum) : jsAdd (jsAdd a b) c = jsAdd a (jsAdd b c) := by
  cases a <;> cases b <;> cases c <;> simp [jsAdd, add_assoc]

theorem jsAdd_zero_left (a : JsNum) : jsAdd (some 0) a = a := by
  cases a <;> simp [jsAdd]

theorem salesSpec_nil : salesSpec [] = some 0 := by
  simp [salesSpec]

theorem salesSpec_cons (o : ShopifyOrder) (os : List ShopifyOrder) :
    salesSpec (o :: os) = jsAdd (parsePrice o.total_price) (salesSpec os) := by
  cases hp : parsePrice o.total_price with
  | none => simp [salesSpec, jsAdd, hp]
  | some v =>
    by_cases hall : os.all (fun o => (parsePrice o.total_price).isSome) = true
    · simp [salesSpec, hp, hall, jsAdd]
    · simp [salesSpec, hp, hall, jsAdd]

theorem salesFold_eq (os : List ShopifyOrder) (acc : JsNum) :
    os.foldl (fun s o => jsAdd s (parsePrice o.total_price)) acc = jsAdd acc (salesSpec os) := by
  induction os generalizing acc with
  | nil => cases acc <;> simp [jsAdd, salesSpec_nil]
  | cons o os ih =>
    rw [List.foldl_cons, ih, salesSpec_cons, ← jsAdd_assoc]

theorem ordersFold_eq (os : List ShopifyOrder) (n : Nat) (acc : JsNum) :
    os.foldl (fun (a : Nat × JsNum) o => (a.1 + 1, jsAdd a.2 (parsePrice o.total_price))) (n, acc)
      = (n + os.length, os.foldl (fun s o => jsAdd s (parsePrice o.total_price)) acc) := by
  induction os generalizing n acc with
  | nil => simp
  | cons o os ih =>
    rw [List.foldl_cons, List.foldl_cons, ih]
    simp
    omega

theorem nextPageLoop_eq (parts : List Str) :
    nextPageLoop parts = (parts.find? isNextSeg).bind
      (fun part => (findPageInfo (urlPartOf part)).map percentDecode) := by
  induction parts with
  | nil => rfl
  | cons part rest ih =>
    by_cases h : ((splitOnChar ';' part).map trimStr)[1]? = some relNext
    · have hb : isNextSeg part = true := decide_eq_true h
      simp only [nextPageLoop]
      rw [if_pos h, List.find?_cons_of_pos _ hb]
      have hu : ((splitOnChar ';' part).map trimStr).headD [] = urlPartOf part := rfl
      rw [hu]
      cases hfp : findPageInfo (urlPartOf part) <;> simp [hfp]
    · have hb : isNextSeg part = false := decide_eq_false h
      simp only [nextPageLoop]
      rw [if_neg h, List.find?_cons_of_neg _ (by simp [hb]), ih]

theorem getNextPage_eq (h : Str) :
    getNextPage (some h) = (((splitOnChar ',' h).map trimStr).find? isNextSeg).bind
      (fun part => (findPageInfo (urlPartOf part)).map percentDecode) := by
  cases h with
  | nil => rfl
  | cons c cs =>
    simp only [getNextPage, List.isEmpty_cons, if_neg Bool.false_ne_true, nextPageLoop_eq]

theorem shopifyLoop_ok (pages : List ShopifyResponse) (h : goodChain pages = true)
    (n : Nat) (acc : JsNum) :
    shopifyLoop pages n acc
      = .ok ⟨n + (pageOrders pages).length,
             (pageOrders pages).foldl (fun s o => jsAdd s (parsePrice o.total_price)) acc⟩ := by
  induction pages generalizing n acc with
  | nil => simp [goodChain] at h
  | cons r rest ih =>
    cases rest with
    | nil =>
      simp only [goodChain, Bool.and_eq_true] at h
      obtain ⟨⟨hok, hsome⟩, hnone⟩ := h
      obtain ⟨os, hos⟩ := Option.isSome_iff_exists.mp hsome
      have hnext : getNextPage r.link = none := Option.isNone_iff_eq_none.mp hnone
      simp [shopifyLoop, hok, hos, hnext, ordersFold_eq, pageOrders]
    | cons r₂ rest₂ =>
      simp only [goodChain, okPage, Bool.and_eq_true] at h
      obtain ⟨⟨⟨hok, hsome⟩, hnext⟩, hchain⟩ := h
      obtain ⟨os, hos⟩ := Option.isSome_iff_exists.mp hsome
      obtain ⟨tok, htok⟩ := Option.isSome_iff_exists.mp hnext
      have hpo : pageOrders (r :: r₂ :: rest₂) = os ++ pageOrders (r₂ :: rest₂) := by
        simp [pageOrders, hos]
      rw [shopifyLoop.eq_def]
      simp only [hok, hos, htok, ordersFold_eq, Bool.not_true, hpo]
      simp only [Bool.false_eq_true, if_false]
      rw [ih hchain]
      simp [List.foldl_append, Nat.add_assoc]

theorem fetchShopify_okChain (env : Env) (pages : List ShopifyResponse)
    (hs : truthy env.SHOPIFY_STORE = true) (ht : truthy env.SHOPIFY_ADMIN_TOKEN = true)
    (h : goodChain pages = true) :
    fetchShopify env pages = .ok ⟨(pageOrders pages).length, salesSpec (pageOrders pages)⟩ := by
  unfold fetchShopify
  rw [hs, ht]
  simp only [Bool.not_true, Bool.or_self]
  simp only [Bool.false_eq_true, if_false]
  rw [shopifyLoop_ok pages h 0 (some 0), salesFold_eq, jsAdd_zero_left, Nat.zero_add]

theorem shopifyLoop_skip (pre : List ShopifyResponse) (hpre : pre.all okPage = true)
    (rest : List ShopifyResponse) (n : Nat) (acc : JsNum) :
    ∃ n' acc', shopifyLoop (pre ++ rest) n acc = shopifyLoop rest n' acc' := by
  induction pre generalizing n acc with
  | nil => exact ⟨n, acc, rfl⟩
  | cons p ps ih =>
    simp only [List.all_cons, okPage, Bool.and_eq_true] at hpre
    obtain ⟨⟨⟨hok, hsome⟩, hnext⟩, hps⟩ := hpre
    obtain ⟨os, hos⟩ := Option.isSome_iff_exists.mp hsome
    obtain ⟨tok, htok⟩ := Option.isSome_iff_exists.mp hnext
    rw [List.cons_append, shopifyLoop.eq_def]
    simp only [hok, hos, htok, ordersFold_eq, Bool.not_true]
    simp only [Bool.false_eq_true, if_false]
    exact ih hps _ _

/-! Claim theorems. -/

/-- C2: `getNextPage` returns the URL-decoded `page_info` cursor taken from
the (first) comma-separated segment whose relation part is exactly
`rel="next"`, and returns `none` when the header is absent, when no segment
has relation `next` (the `find?` is `none`), or when that segment's URL
carries no `page_info` parameter (the `findPageInfo` is `none`); the claim's
example header yields `"ABC"`, and an encoded cursor comes back decoded. -/
theorem getNextPage_spec_C2 :
    getNextPage none = none
    ∧ (∀ h : Str, getNextPage (some h)
        = (((splitOnChar ',' h).map trimStr).find? isNextSeg).bind
            (fun part => (findPageInfo (urlPartOf part)).map percentDecode))
    ∧ getNextPage (some "<url1>; rel=\"prev\", <url2?page_info=ABC>; rel=\"next\"".toList)
        = some "ABC".toList
    ∧ getNextPage (some "<u?page_info=A%20B>; rel=\"next\"".toList) = some "A B".toList :=
  ⟨rfl, getNextPage_eq, by decide, by decide⟩

/-- C9: first-match semantics of `getNextPage` — whenever the first
`rel="next"` segment of the header has no `page_info` parameter the result is
`none`, even when a later segment also carries `rel="next"` together with a
cursor, as the concrete two-`next` header shows. -/
theorem getNextPage_firstMatch_C9 :
    (∀ (h part : Str), ((splitOnChar ',' h).map trimStr).find? isNextSeg = some part →
      findPageInfo (urlPartOf part) = none → getNextPage (some h) = none)
    ∧ getNextPage (some headerTwoNext) = none := by
  refine ⟨?_, by decide⟩
  intro h part hfind hnone
  rw [getNextPage_eq, hfind]
  simp [hnone]

/-- Witness for C9: on the header with two `rel="next"` segments where only
the second has a cursor, the first-match rule forces `none`. -/
theorem getNextPage_firstMatch_C9_witness : getNextPage (some headerTwoNext) = none :=
  getNextPage_firstMatch_C9.1 headerTwoNext "<https://x/a>; rel=\"next\"".toList
    (by decide) (by decide)

set_option maxHeartbeats 2000000 in
/-- C1 counterexample: one successful page whose orders are
`[{total_price: "abc"}, {total_price: "5.00"}]`. The claim as stated
predicts `sales = 0 + 5 = 5` (a non-numeric price contributing 0); the code
instead produces `sales = NaN`, since `parseFloat("abc")` is `NaN` and
adding `NaN` poisons the accumulator. -/
theorem fetchShopify_nonNumeric_counterexample :
    fetchShopify envOK [pageBadPrice] = .ok ⟨2, none⟩
    ∧ (⟨2, none⟩ : OrderAggregate) ≠ ⟨2, some 5⟩ := by
  constructor
  · norm_num +decide [fetchShopify, envOK, truthy, shopifyLoop, pageBadPrice, parsePrice,
      parseFloatJs, readDigits, digitVal, digitsVal, jsAdd, getNextPage]
  · decide

/-- C1 (amended): for every successful paged response sequence, the fetch
returns the total number of order records as `orders`, and as `sales` the
exact sum of the parsed `total_price` values — a missing or empty price
contributing 0 — when every present price parses as a number, and `NaN` when
any present price is non-numeric. -/
theorem fetchShopify_accumulates (env : Env) (pages : List ShopifyResponse)
    (hs : truthy env.SHOPIFY_STORE = true) (ht : truthy env.SHOPIFY_ADMIN_TOKEN = true)
    (h : goodChain pages = true) :
    fetchShopify env pages = .ok ⟨(pageOrders pages).length, salesSpec (pageOrders pages)⟩ :=
  fetchShopify_okChain env pages hs ht h

set_option maxHeartbeats 2000000 in
/-- Witness for the amended C1: the spec's two-page run (2 orders summing
19.98 with a next cursor, then 1 order of 5.00) returns
`{orders: 3, sales: 24.98}`. -/
theorem fetchShopify_accumulates_witness :
    fetchShopify envOK [page₁, page₂] = .ok ⟨3, some (2498/100)⟩ := by
  have h := fetchShopify_accumulates envOK [page₁, page₂] (by decide) (by decide) (by decide)
  rw [h]
  norm_num +decide [pageOrders, page₁, page₂, salesSpec, parsePrice, parseFloatJs,
    readDigits, digitVal, digitsVal]

/-- C5: a non-success response on any page (after any run of successful
pages) aborts the whole fetch with an error carrying that response's status
and body; the error result returns none of the partial count or sum. -/
theorem fetchShopify_httpError (env : Env) (pre rest : List ShopifyResponse)
    (r : ShopifyResponse) (hs : truthy env.SHOPIFY_STORE = true)
    (ht : truthy env.SHOPIFY_ADMIN_TOKEN = true) (hpre : pre.all okPage = true)
    (hr : r.ok = false) :
    fetchShopify env (pre ++ r :: rest) = .error (.shopifyApi r.status r.body) := by
  unfold fetchShopify
  rw [hs, ht]
  simp only [Bool.not_true, Bool.or_self]
  simp only [Bool.false_eq_true, if_false]
  obtain ⟨n', acc', hskip⟩ := shopifyLoop_skip pre hpre (r :: rest) 0 (some 0)
  rw [hskip, shopifyLoop.eq_def]
  simp [hr]

/-- Witness for C5: a 429 with body `slow down` on the second page aborts the
fetch with exactly that status and body. -/
theorem fetchShopify_httpError_witness :
    fetchShopify envOK ([page₁] ++ pageDown :: []) = .error (.shopifyApi 429 "slow down".toList) :=
  fetchShopify_httpError envOK [page₁] [] pageDown (by decide) (by decide) (by decide) rfl

/-- C10: a successful response whose body lacks an `orders` array makes the
fetch throw (the `for … of data.orders` iteration is unguarded) instead of
treating the page as empty. -/
theorem fetchShopify_missingOrders (env : Env) (pre rest : List ShopifyResponse)
    (r : ShopifyResponse) (hs : truthy env.SHOPIFY_STORE = true)
    (ht : truthy env.SHOPIFY_ADMIN_TOKEN = true) (hpre : pre.all okPage = true)
    (hok : r.ok = true) (hnone : r.ordersField = none) :
    fetchShopify env (pre ++ r :: rest) = .error .ordersNotIterable := by
  unfold fetchShopify
  rw [hs, ht]
  simp only [Bool.not_true, Bool.or_self]
  simp only [Bool.false_eq_true, if_false]
  obtain ⟨n', acc', hskip⟩ := shopifyLoop_skip pre hpre (r :: rest) 0 (some 0)
  rw [hskip, shopifyLoop.eq_def]
  simp [hok, hnone]

/-- Witness for C10: a 200 response with no `orders` array throws. -/
theorem fetchShopify_missingOrders_witness :
    fetchShopify envOK ([] ++ pageNoOrders :: []) = .error .ordersNotIterable :=
  fetchShopify_missingOrders envOK [] [] pageNoOrders (by decide) (by decide) rfl rfl rfl

/-- C3: the aggregator's output record keeps the order count unchanged, puts
the analytics sessions value within 1/2 of an integer `sessions` (nearest
integer), the sales sum within 1/200 of the 2-decimal `sales`, the
conversion fraction times 100 within 1/200 of the 2-decimal
`conversionRate`, and leaves all four delta fields and both series fields
null; on the claim's concrete inputs it produces exactly
`{sessions: 500, orders: 10, sales: 200, conversionRate: 3.33, …nulls}`. -/
theorem composeOutput_spec_C3 (s : OrderAggregate) (g : AnalyticsSummary) (q c p : ℚ)
    (hq : g.sessions = some q) (hc : g.conversionRate = some c) (hp : s.sales = some p) :
    (composeOutput s g).orders = s.orders
    ∧ (∃ n : ℤ, (composeOutput s g).sessions = some (n : ℚ) ∧ |(n : ℚ) - q| ≤ 1/2)
    ∧ (∃ m : ℤ, (composeOutput s g).sales = some ((m : ℚ) / 100)
        ∧ |(m : ℚ) / 100 - p| ≤ 1/200)
    ∧ (∃ k : ℤ, (composeOutput s g).conversionRate = some ((k : ℚ) / 100)
        ∧ |(k : ℚ) / 100 - 100 * c| ≤ 1/200)
    ∧ (composeOutput s g).sessionsDelta = none ∧ (composeOutput s g).ordersDelta = none
    ∧ (composeOutput s g).salesDelta = none ∧ (composeOutput s g).conversionRateDelta = none
    ∧ (composeOutput s g).labels = none ∧ (composeOutput s g).series = none
    ∧ composeOutput ⟨10, some (199996/1000)⟩ ⟨some (5004/10), some (3333/100000)⟩
      = ⟨some 500, 10, some 200, some (333/100), none, none, none, none, none, none⟩ := by
  refine ⟨rfl, ⟨⌊q + 1/2⌋, ?_, ?_⟩, ⟨⌊p * 100 + 1/2⌋, ?_, ?_⟩,
    ⟨⌊c * 100 * 100 + 1/2⌋, ?_, ?_⟩, rfl, rfl, rfl, rfl, rfl, rfl, ?_⟩
  · simp [composeOutput, jsRound, hq]
  · rw [abs_le]
    constructor
    · linarith [Int.lt_floor_add_one (q + 1/2)]
    · linarith [Int.floor_le (q + 1/2)]
  · simp [composeOutput, fix2, hp]
  · rw [abs_le]
    constructor
    · linarith [Int.lt_floor_add_one (p * 100 + 1/2)]
    · linarith [Int.floor_le (p * 100 + 1/2)]
  · simp [composeOutput, fix2, jsMul, hc, mul_comm]
  · rw [abs_le]
    constructor
    · linarith [Int.lt_floor_add_one (c * 100 * 100 + 1/2)]
    · linarith [Int.floor_le (c * 100 * 100 + 1/2)]
  · simp only [composeOutput, jsRound, jsMul, fix2]
    norm_num

/-- Witness for C3 at the claim's concrete inputs. -/
theorem composeOutput_spec_C3_witness :
    (composeOutput ⟨10, some (199996/1000)⟩ ⟨some (5004/10), some (3333/100000)⟩).orders = 10 :=
  (composeOutput_spec_C3 ⟨10, some (199996/1000)⟩ ⟨some (5004/10), some (3333/100000)⟩
    (5004/10) (3333/100000) (199996/1000) rfl rfl rfl).1

/-- C4: the run writes an output record exactly when both source fetches
succeed — the record is then the composition of the two results — and when
either fetch rejects the run ends in the error path (the caught error is
printed and the process exits non-zero) with no record written. -/
theorem mainRun_allOrNothing {α : Type} (jsonParse : Str → Option α) (env : Env)
    (pages : List ShopifyResponse) (resp : GA4Response) :
    (∀ r : OutputRecord, mainRun jsonParse env pages resp = .ok r ↔
      ∃ s g, fetchShopify env pages = .ok s ∧ fetchGA4 jsonParse env resp = .ok g
        ∧ r = composeOutput s g.summary)
    ∧ (((∃ e, fetchShopify env pages = .error e) ∨ (∃ e, fetchGA4 jsonParse env resp = .error e))
        → ∃ e, mainRun jsonParse env pages resp = .error e) := by
  cases hs : fetchShopify env pages with
  | error e => exact ⟨fun r => by simp [mainRun, hs], fun _ => ⟨e, by simp [mainRun, hs]⟩⟩
  | ok s =>
    cases hg : fetchGA4 jsonParse env resp with
    | error e =>
      exact ⟨fun r => by simp [mainRun, hs, hg], fun _ => ⟨e, by simp [mainRun, hs, hg]⟩⟩
    | ok g =>
      refine ⟨fun r => ⟨fun h => ?_, fun h => ?_⟩, fun h => ?_⟩
      · have h' : composeOutput s g.summary = r := by simpa [mainRun, hs, hg] using h
        exact ⟨s, g, rfl, rfl, h'.symm⟩
      · obtain ⟨s', g', hs', hg', hr⟩ := h
        obtain rfl : s = s' := Except.ok.inj hs'
        obtain rfl : g = g' := Except.ok.inj hg'
        simp [mainRun, hs, hg, hr]
      · rcases h with ⟨e, he⟩ | ⟨e, he⟩
        · exact absurd he (by simp)
        · exact absurd he (by simp)

/-- Witness for C4: with the store credential unset the order fetch rejects,
so the run ends in the error path and writes nothing. -/
theorem mainRun_allOrNothing_witness :
    ∃ e, mainRun noParse envNoStore [] gaResp = .error e :=
  (mainRun_allOrNothing noParse envNoStore [] gaResp).2 (Or.inl ⟨.missingShopifyEnv, rfl⟩)

/-- C7: each client fails fast with its descriptive error when a required
credential is absent — for every state of the network (all `pages`, all
`resp`), so before and independent of any network call. -/
theorem fetch_missingCreds {α : Type} (jsonParse : Str → Option α) (env : Env) :
    ((env.SHOPIFY_STORE = none ∨ env.SHOPIFY_ADMIN_TOKEN = none) →
      ∀ pages, fetchShopify env pages = .error .missingShopifyEnv)
    ∧ ((env.GA4_PROPERTY_ID = none ∨ env.GA4_CLIENT_EMAIL = none
        ∨ env.GA4_PRIVATE_KEY = none) →
      ∀ resp, fetchGA4 jsonParse env resp = .error .missingGA4Creds) := by
  constructor
  · rintro (h | h) pages <;> simp [fetchShopify, truthy, h]
  · rintro (h | h | h) resp <;> simp [fetchGA4, truthy, h]

/-- Witness for C7: an unset store identifier fails the order client; an
unset property ID fails the analytics client. -/
theorem fetch_missingCreds_witness :
    fetchShopify envNoStore [] = .error .missingShopifyEnv
    ∧ fetchGA4 noParse envNoProperty gaResp = .error .missingGA4Creds :=
  ⟨(fetch_missingCreds noParse envNoStore).1 (Or.inl rfl) [],
   (fetch_missingCreds noParse envNoProperty).2 (Or.inl rfl) gaResp⟩

/-- C8: with credentials present, the analytics summary is parsed from the
first row's first two metric values; with no rows (absent or empty `rows`)
it is `{sessions: 0, conversionRate: 0}`; rows beyond the first never affect
the result; and the claim's example values parse to 1000 and 0.025. -/
theorem fetchGA4_firstRow {α : Type} (jsonParse : Str → Option α) (env : Env)
    (h₁ : truthy env.GA4_PROPERTY_ID = true) (h₂ : truthy env.GA4_CLIENT_EMAIL = true)
    (h₃ : truthy (env.GA4_PRIVATE_KEY.map unescapeNewlines) = true) :
    (∀ (resp : GA4Response) (row : GA4Row) (rest : List GA4Row) (v₀ v₁ : Str),
      resp.rows = some (row :: rest) → row.metricValues[0]? = some v₀ →
      row.metricValues[1]? = some v₁ →
      ∃ w req, fetchGA4 jsonParse env resp = .ok ⟨w, req, ⟨parseFloatJs v₀, parseFloatJs v₁⟩⟩)
    ∧ (∀ resp : GA4Response, resp.rows = none ∨ resp.rows = some [] →
      ∃ w req, fetchGA4 jsonParse env resp = .ok ⟨w, req, ⟨some 0, some 0⟩⟩)
    ∧ (∀ (row : GA4Row) (rest rest' : List GA4Row),
      fetchGA4 jsonParse env ⟨some (row :: rest)⟩ = fetchGA4 jsonParse env ⟨some (row :: rest')⟩)
    ∧ parseFloatJs "1000".toList = some 1000 ∧ parseFloatJs "0.025".toList = some (1/40) := by
  refine ⟨?_, ?_, ?_, ?_, ?_⟩
  · intro resp row rest v₀ v₁ hrows hv₀ hv₁
    unfold fetchGA4
    simp only [h₁, h₂, h₃, Bool.not_true, Bool.or_self]
    simp only [Bool.false_eq_true, if_false]
    rw [hrows]
    simp [hv₀, hv₁]
  · intro resp h
    unfold fetchGA4
    simp only [h₁, h₂, h₃, Bool.not_true, Bool.or_self]
    simp only [Bool.false_eq_true, if_false]
    rcases h with h | h <;> rw [h] <;> simp
  · intro row rest rest'
    unfold fetchGA4
    simp only [h₁, h₂, h₃, Bool.not_true, Bool.or_self]
    simp only [Bool.false_eq_true, if_false]
    simp
  · norm_num +decide [parseFloatJs, readDigits, digitVal, digitsVal]
  · norm_num +decide [parseFloatJs, readDigits, digitVal, digitsVal]

/-- Witness for C8: the one-row mock response
`[sessions="1000", conversionRate="0.025"]` yields the parsed pair. -/
theorem fetchGA4_firstRow_witness :
    ∃ w req, fetchGA4 noParse envOK gaResp
      = .ok ⟨w, req, ⟨parseFloatJs "1000".toList, parseFloatJs "0.025".toList⟩⟩ :=
  (fetchGA4_firstRow noParse envOK (by decide) (by decide) (by decide)).1 gaResp
    ⟨["1000".toList, "0.025".toList]⟩ [] "1000".toList "0.025".toList rfl rfl rfl

/-- C6: a provided (non-empty) filter string that fails to parse adds the
console warning, leaves the dimension filter out of the issued request, and
otherwise changes nothing: the run still returns the same successful summary
as the run with no filter configured. -/
theorem fetchGA4_invalidFilter {α : Type} (jsonParse : Str → Option α) (env : Env)
    (resp : GA4Response) (f : Str) (hf : env.SEGMENT_GA_FILTER = some f)
    (hne : f.isEmpty = false) (hparse : jsonParse f = none)
    (h₁ : truthy env.GA4_PROPERTY_ID = true) (h₂ : truthy env.GA4_CLIENT_EMAIL = true)
    (h₃ : truthy (env.GA4_PRIVATE_KEY.map unescapeNewlines) = true)
    (hresp : respWellFormed resp = true) :
    ∃ (req : GA4Request α) (summ : AnalyticsSummary), req.dimensionFilter = none
      ∧ fetchGA4 jsonParse env resp = .ok ⟨[invalidFilterWarning], req, summ⟩
      ∧ fetchGA4 jsonParse { env with SEGMENT_GA_FILTER := none } resp = .ok ⟨[], req, summ⟩ := by
  unfold fetchGA4
  simp only [h₁, h₂, h₃, Bool.not_true, Bool.or_self]
  simp only [Bool.false_eq_true, if_false]
  rw [hf]
  simp only [hne, hparse]
  cases hrow : resp.rows.bind (fun rs => rs[0]?) with
  | none =>
    refine ⟨⟨"properties/".toList ++ env.GA4_PROPERTY_ID.getD [], none⟩,
      ⟨some 0, some 0⟩, rfl, ?_, ?_⟩ <;> simp [hne]
  | some row =>
    unfold respWellFormed at hresp
    rw [hrow] at hresp
    simp only [Bool.and_eq_true, Option.isSome_iff_exists] at hresp
    obtain ⟨⟨v₀, hv₀⟩, ⟨v₁, hv₁⟩⟩ := hresp
    refine ⟨⟨"properties/".toList ++ env.GA4_PROPERTY_ID.getD [], none⟩,
      ⟨parseFloatJs v₀, parseFloatJs v₁⟩, rfl, ?_, ?_⟩ <;> simp [hv₀, hv₁, hne]

/-- Witness for C6: the unparsable filter `not json` warns, drops the filter
and still succeeds. -/
theorem fetchGA4_invalidFilter_witness :
    ∃ (req : GA4Request Unit) (summ : AnalyticsSummary), req.dimensionFilter = none
      ∧ fetchGA4 noParse envWithFilter gaResp = .ok ⟨[invalidFilterWarning], req, summ⟩
      ∧ fetchGA4 noParse { envWithFilter with SEGMENT_GA_FILTER := none } gaResp
          = .ok ⟨[], req, summ⟩ :=
  fetchGA4_invalidFilter noParse envWithFilter gaResp "not json".toList rfl rfl rfl
    (by decide) (by decide) (by decide) (by decide)

